import Mathlib

/-!
Shallow embedding of the timer state machine from `gpotti/timercode`.

Two source variants are embedded:
* `TimerC` models `src/timer.c` (`timer_modes.c`): explicit three-mode
  enumeration, `MAX_DURATION = 10`, void operations on a `TimerState`.
* `Simple` models `src/unnamed/part_000` (`timer.c`): no mode field,
  `MAX_DURATION = 255`, operations returning a success `Bool`.

C `int` fields are embedded as `Int`; C `bool` as `Bool`; operations that
mutate through a pointer become functions `State → State` (or
`State → Bool × State` when the C function returns a status).
-/

namespace TimerC

/-- The `MAX_DURATION` macro of `src/timer.c` (line 12). -/
def MAX_DURATION : Int := 10

/-- The `TimerMode` enumeration of `src/timer.c` (lines 17-21). -/
inductive TimerMode where
  | Disabled
  | Countdown
  | Stopwatch
deriving DecidableEq, Repr

/-- The `TimerState` struct of `src/timer.c` (lines 26-31). -/
structure TimerState where
  timer_value : Int
  timer_enabled : Bool
  interrupt_flag : Bool
  timer_mode : TimerMode
deriving DecidableEq, Repr

/-- `initTimer` of `src/timer.c` (lines 37-42): zero all fields, mode Disabled. -/
def initTimer (state : TimerState) : TimerState :=
  { state with
    timer_value := 0
    timer_enabled := false
    interrupt_flag := false
    timer_mode := .Disabled }

/-- The state produced by `initTimer`, written out. -/
def initState : TimerState :=
  ⟨0, false, false, .Disabled⟩

/-- `setCountdownTimer` of `src/timer.c` (lines 49-56): guarded configure
into Countdown mode; the else branch leaves the state untouched. -/
def setCountdownTimer (state : TimerState) (value : Int) : TimerState :=
  if value > 0 ∧ value ≤ MAX_DURATION then
    { state with
      timer_value := value
      timer_enabled := true
      interrupt_flag := false
      timer_mode := .Countdown }
  else state

/-- `decrementTimer` of `src/timer.c` (lines 62-66). -/
def decrementTimer (state : TimerState) : TimerState :=
  if state.timer_enabled = true ∧ state.timer_mode = .Countdown ∧ state.timer_value > 0 then
    { state with timer_value := state.timer_value - 1 }
  else state

/-- `incrementStopwatch` of `src/timer.c` (lines 72-76): note the body is a
bare `timer_value++` with no upper-bound check. -/
def incrementStopwatch (state : TimerState) : TimerState :=
  if state.timer_enabled = true ∧ state.timer_mode = .Stopwatch then
    { state with timer_value := state.timer_value + 1 }
  else state

/-- The branch condition of `triggerInterrupt` in `src/timer.c` (line 83);
the C function is `void`, so whether an interrupt fired is observed as this
guard (the `Simple` variant returns exactly this as its `bool` result). -/
def triggerFires (state : TimerState) : Bool :=
  decide (state.timer_enabled = true ∧ state.timer_mode = .Countdown ∧ state.timer_value = 0)

/-- `triggerInterrupt` of `src/timer.c` (lines 82-88). -/
def triggerInterrupt (state : TimerState) : TimerState :=
  if state.timer_enabled = true ∧ state.timer_mode = .Countdown ∧ state.timer_value = 0 then
    { state with
      interrupt_flag := true
      timer_enabled := false
      timer_mode := .Disabled }
  else state

/-- `resetTimer` of `src/timer.c` (lines 94-99): identical body to `initTimer`. -/
def resetTimer (state : TimerState) : TimerState :=
  { state with
    timer_value := 0
    timer_enabled := false
    interrupt_flag := false
    timer_mode := .Disabled }

/-- Modelled from the spec: `configureStopwatch()` appears in no source file
(only the `MODE_STOPWATCH` enumerator and its consumer `incrementStopwatch`
do). The spec states it "sets `value=0, enabled=true, interruptFlag=false,
mode=Stopwatch`. Always succeeds." -/
def configureStopwatch (state : TimerState) : TimerState :=
  { state with
    timer_value := 0
    timer_enabled := true
    interrupt_flag := false
    timer_mode := .Stopwatch }

/-- States reachable from the initialized state by the operations actually
exported by `src/timer.c`. -/
inductive ReachC : TimerState → Prop where
  | init (s : TimerState) : ReachC (initTimer s)
  | set {s : TimerState} (d : Int) : ReachC s → ReachC (setCountdownTimer s d)
  | decr {s : TimerState} : ReachC s → ReachC (decrementTimer s)
  | incr {s : TimerState} : ReachC s → ReachC (incrementStopwatch s)
  | trig {s : TimerState} : ReachC s → ReachC (triggerInterrupt s)
  | reset {s : TimerState} : ReachC s → ReachC (resetTimer s)

/-- States reachable when the spec-modelled `configureStopwatch` is added to
the operation set (the unified design of the spec). -/
inductive ReachU : TimerState → Prop where
  | init (s : TimerState) : ReachU (initTimer s)
  | set {s : TimerState} (d : Int) : ReachU s → ReachU (setCountdownTimer s d)
  | stopwatch {s : TimerState} : ReachU s → ReachU (configureStopwatch s)
  | decr {s : TimerState} : ReachU s → ReachU (decrementTimer s)
  | incr {s : TimerState} : ReachU s → ReachU (incrementStopwatch s)
  | trig {s : TimerState} : ReachU s → ReachU (triggerInterrupt s)
  | reset {s : TimerState} : ReachU s → ReachU (resetTimer s)

end TimerC

namespace Simple

/-- The `MAX_DURATION` macro of `src/unnamed/part_000` (line 22). -/
def MAX_DURATION : Int := 255

/-- The `Timer` struct of `src/unnamed/part_000` (lines 28-32). -/
structure Timer where
  value : Int
  enabled : Bool
  interrupt_flag : Bool
deriving DecidableEq, Repr

/-- `initTimer` of `src/unnamed/part_000` (lines 39-43). -/
def initTimer (timer : Timer) : Timer :=
  { timer with value := 0, enabled := false, interrupt_flag := false }

/-- `setTimer` of `src/unnamed/part_000` (lines 53-61): returns `true` and
configures on a valid duration, returns `false` leaving the state untouched
otherwise. -/
def setTimer (timer : Timer) (duration : Int) : Bool × Timer :=
  if duration > 0 ∧ duration ≤ MAX_DURATION then
    (true, { timer with value := duration, enabled := true, interrupt_flag := false })
  else (false, timer)

/-- `decrementTimer` of `src/unnamed/part_000` (lines 69-75). -/
def decrementTimer (timer : Timer) : Bool × Timer :=
  if timer.enabled = true ∧ timer.value > 0 then
    (true, { timer with value := timer.value - 1 })
  else (false, timer)

/-- `triggerInterrupt` of `src/unnamed/part_000` (lines 83-90). -/
def triggerInterrupt (timer : Timer) : Bool × Timer :=
  if timer.enabled = true ∧ timer.value = 0 then
    (true, { timer with interrupt_flag := true, enabled := false })
  else (false, timer)

/-- `resetTimer` of `src/unnamed/part_000` (lines 97-101). -/
def resetTimer (timer : Timer) : Timer :=
  { timer with value := 0, enabled := false, interrupt_flag := false }

end Simple

/-! Helper lemmas shared by several claims. -/

/-- The invariant of the mode variant: value in `[0, MAX_DURATION]` and
Stopwatch mode never entered. -/
def InvC (s : TimerC.TimerState) : Prop :=
  0 ≤ s.timer_value ∧ s.timer_value ≤ TimerC.MAX_DURATION ∧
    s.timer_mode ≠ .Stopwatch

/-- `initTimer` establishes the invariant. -/
theorem invC_init (s : TimerC.TimerState) : InvC (TimerC.initTimer s) := by
  simp [InvC, TimerC.initTimer, TimerC.MAX_DURATION]

/-- `setCountdownTimer` preserves the invariant. -/
theorem invC_set (s : TimerC.TimerState) (d : Int) (h : InvC s) :
    InvC (TimerC.setCountdownTimer s d) := by
  unfold TimerC.setCountdownTimer
  split
  · rename_i hg
    exact ⟨le_of_lt hg.1, hg.2, by simp⟩
  · exact h

/-- `decrementTimer` preserves the invariant. -/
theorem invC_decr (s : TimerC.TimerState) (h : InvC s) :
    InvC (TimerC.decrementTimer s) := by
  unfold TimerC.decrementTimer
  split
  · rename_i hg
    obtain ⟨h0, hmax, hm⟩ := h
    refine ⟨show 0 ≤ s.timer_value - 1 by omega, ?_, hm⟩
    show s.timer_value - 1 ≤ TimerC.MAX_DURATION
    omega
  · exact h

/-- `incrementStopwatch` preserves the invariant (its guard needs Stopwatch
mode, which the invariant rules out). -/
theorem invC_incr (s : TimerC.TimerState) (h : InvC s) :
    InvC (TimerC.incrementStopwatch s) := by
  unfold TimerC.incrementStopwatch
  rw [if_neg]
  · exact h
  · rintro ⟨h1, h2⟩
    exact h.2.2 h2

/-- `triggerInterrupt` preserves the invariant. -/
theorem invC_trig (s : TimerC.TimerState) (h : InvC s) :
    InvC (TimerC.triggerInterrupt s) := by
  unfold TimerC.triggerInterrupt
  split
  · exact ⟨h.1, h.2.1, by simp⟩
  · exact h

/-- `resetTimer` establishes the invariant. -/
theorem invC_reset (s : TimerC.TimerState) : InvC (TimerC.resetTimer s) := by
  simp [InvC, TimerC.resetTimer, TimerC.MAX_DURATION]

/-- Every state reachable by the `src/timer.c` operations satisfies the
invariant. -/
theorem reachC_invariant {s : TimerC.TimerState} (h : TimerC.ReachC s) : InvC s := by
  induction h with
  | init s => exact invC_init s
  | set d h ih => exact invC_set _ d ih
  | decr h ih => exact invC_decr _ ih
  | incr h ih => exact invC_incr _ ih
  | trig h ih => exact invC_trig _ ih
  | reset h ih => exact invC_reset _

/-- Iterating `incrementStopwatch` preserves reachability in the unified
operation set. -/
theorem reachU_iterate_incr {s : TimerC.TimerState} (h : TimerC.ReachU s) (n : Nat) :
    TimerC.ReachU (TimerC.incrementStopwatch^[n] s) := by
  induction n with
  | zero => simpa using h
  | succ k ih =>
      rw [Function.iterate_succ_apply']
      exact TimerC.ReachU.incr ih

/-- Starting a countdown at `n` and decrementing `n` times reaches zero with
the timer still enabled in Countdown mode. -/
theorem decrement_iterate (n : Nat) :
    TimerC.decrementTimer^[n] ⟨(n : Int), true, false, .Countdown⟩ =
      ⟨0, true, false, .Countdown⟩ := by
  induction n with
  | zero => simp
  | succ k ih =>
      rw [Function.iterate_succ_apply]
      have h : TimerC.decrementTimer ⟨((k + 1 : Nat) : Int), true, false, .Countdown⟩ =
          ⟨(k : Int), true, false, .Countdown⟩ := by
        unfold TimerC.decrementTimer
        rw [if_pos]
        · simp
        · refine ⟨rfl, rfl, ?_⟩
          show (0 : Int) < ((k + 1 : Nat) : Int)
          exact_mod_cast Nat.succ_pos k
      rw [h, ih]

/-! Claim theorems. -/

/-- C1 (counterexample): with `MAX_DURATION = 10`, in the enabled Stopwatch
state at the ceiling, `incrementStopwatch` is not a no-op and drives the
value to 11, above `MAX_DURATION` — refuting the claimed saturation. -/
theorem C1_counterexample :
    TimerC.incrementStopwatch ⟨10, true, false, .Stopwatch⟩ ≠
        ⟨10, true, false, .Stopwatch⟩ ∧
      (TimerC.incrementStopwatch ⟨10, true, false, .Stopwatch⟩).timer_value = 11 := by
  constructor
  · decide
  · decide

/-- C1 (amended): when `enabled` and `mode == Stopwatch`, `incrementStopwatch`
unconditionally adds one to the value — including at `MAX_DURATION`, where the
result exceeds the bound; the code has no saturation check. -/
theorem C1_increment_adds_one (s : TimerC.TimerState)
    (he : s.timer_enabled = true) (hm : s.timer_mode = .Stopwatch) :
    TimerC.incrementStopwatch s = { s with timer_value := s.timer_value + 1 } := by
  unfold TimerC.incrementStopwatch
  rw [if_pos ⟨he, hm⟩]

/-- C1 witness: the amended theorem at a concrete enabled Stopwatch state. -/
theorem C1_witness :
    TimerC.incrementStopwatch ⟨3, true, false, .Stopwatch⟩ =
      ⟨4, true, false, .Stopwatch⟩ := by
  have h := C1_increment_adds_one ⟨3, true, false, .Stopwatch⟩ rfl rfl
  simpa using h

/-- C2 (counterexample): once the spec-modelled `configureStopwatch` joins the
operation set, the state reached by `initialize; configureStopwatch;
increment × 11` is reachable yet has `value = 11 > MAX_DURATION`, because the
code's `incrementStopwatch` does not saturate. -/
theorem C2_counterexample :
    TimerC.ReachU
        (TimerC.incrementStopwatch^[11] (TimerC.configureStopwatch TimerC.initState)) ∧
      (TimerC.incrementStopwatch^[11]
          (TimerC.configureStopwatch TimerC.initState)).timer_value >
        TimerC.MAX_DURATION := by
  constructor
  · exact reachU_iterate_incr
      (TimerC.ReachU.stopwatch (TimerC.ReachU.init TimerC.initState)) 11
  · decide

/-- C2 (amended): restricted to the operations actually exported by
`src/timer.c` (which never enter Stopwatch mode), every reachable state has
`0 ≤ value ≤ MAX_DURATION`. -/
theorem C2_value_in_range (s : TimerC.TimerState) (h : TimerC.ReachC s) :
    0 ≤ s.timer_value ∧ s.timer_value ≤ TimerC.MAX_DURATION :=
  ⟨(reachC_invariant h).1, (reachC_invariant h).2.1⟩

/-- C2 witness: the amended theorem at the initialized state. -/
theorem C2_witness :
    0 ≤ TimerC.initState.timer_value ∧
      TimerC.initState.timer_value ≤ TimerC.MAX_DURATION :=
  C2_value_in_range TimerC.initState (TimerC.ReachC.init TimerC.initState)

/-- C3: for `1 ≤ d ≤ MAX_DURATION`, `setCountdownTimer d` from the
initialized state followed by `d` decrements yields
`value = 0, enabled = true, mode = Countdown`; on that state the interrupt
guard fires (the status the spec's `checkAndTriggerInterrupt` returns) and
`triggerInterrupt` yields `interruptFlag = true, enabled = false,
mode = Disabled`. -/
theorem C3_countdown_scenario (d : Nat) (h1 : 1 ≤ d)
    (h2 : (d : Int) ≤ TimerC.MAX_DURATION) :
    TimerC.decrementTimer^[d] (TimerC.setCountdownTimer TimerC.initState (d : Int)) =
        ⟨0, true, false, .Countdown⟩ ∧
      TimerC.triggerFires ⟨0, true, false, .Countdown⟩ = true ∧
      TimerC.triggerInterrupt ⟨0, true, false, .Countdown⟩ =
        ⟨0, false, true, .Disabled⟩ := by
  have hset : TimerC.setCountdownTimer TimerC.initState (d : Int) =
      ⟨(d : Int), true, false, .Countdown⟩ := by
    unfold TimerC.setCountdownTimer
    rw [if_pos ⟨by exact_mod_cast h1, h2⟩]
  refine ⟨?_, by decide, by decide⟩
  rw [hset]
  exact decrement_iterate d

/-- C3 witness: the spec's own scenario, `configureCountdown(3)` then three
decrements then the interrupt check. -/
theorem C3_witness :
    TimerC.decrementTimer^[3] (TimerC.setCountdownTimer TimerC.initState 3) =
        ⟨0, true, false, .Countdown⟩ ∧
      TimerC.triggerFires ⟨0, true, false, .Countdown⟩ = true ∧
      TimerC.triggerInterrupt ⟨0, true, false, .Countdown⟩ =
        ⟨0, false, true, .Disabled⟩ := by
  have h := C3_countdown_scenario 3 (by decide) (by decide)
  simpa using h

/-- C4: a duration outside `[1, MAX_DURATION]` leaves the state identical in
both variants; the `Simple` variant's `setTimer` additionally reports the
rejection by returning `false` (the mode variant's setter is `void`). -/
theorem C4_rejected_unchanged (d : Int) (s : TimerC.TimerState) (t : Simple.Timer) :
    (¬ (1 ≤ d ∧ d ≤ TimerC.MAX_DURATION) → TimerC.setCountdownTimer s d = s) ∧
      (¬ (1 ≤ d ∧ d ≤ Simple.MAX_DURATION) → Simple.setTimer t d = (false, t)) := by
  constructor
  · intro h
    unfold TimerC.setCountdownTimer
    rw [if_neg]
    rintro ⟨h1, h2⟩
    exact h ⟨by omega, h2⟩
  · intro h
    unfold Simple.setTimer
    rw [if_neg]
    rintro ⟨h1, h2⟩
    exact h ⟨by omega, h2⟩

/-- C4 witness: duration 0 is rejected by both variants without mutation. -/
theorem C4_witness :
    TimerC.setCountdownTimer ⟨2, true, false, .Countdown⟩ 0 =
        ⟨2, true, false, .Countdown⟩ ∧
      Simple.setTimer ⟨7, true, false⟩ 0 = (false, ⟨7, true, false⟩) := by
  have h := C4_rejected_unchanged 0 ⟨2, true, false, .Countdown⟩ ⟨7, true, false⟩
  exact ⟨h.1 (by decide), h.2 (by decide)⟩

/-- C5: the (spec-modelled) `configureStopwatch` applied to any state yields
`value = 0, enabled = true, interruptFlag = false, mode = Stopwatch`, with no
error condition. -/
theorem C5_configureStopwatch (s : TimerC.TimerState) :
    TimerC.configureStopwatch s = ⟨0, true, false, .Stopwatch⟩ := rfl

/-- C6: the interrupt check is idempotent in both variants — after one call
(whether or not it fired), a second call reports `false` and changes no
field. -/
theorem C6_trigger_idempotent (s : TimerC.TimerState) (t : Simple.Timer) :
    TimerC.triggerFires (TimerC.triggerInterrupt s) = false ∧
      TimerC.triggerInterrupt (TimerC.triggerInterrupt s) = TimerC.triggerInterrupt s ∧
      Simple.triggerInterrupt (Simple.triggerInterrupt t).2 =
        (false, (Simple.triggerInterrupt t).2) := by
  have main1 : TimerC.triggerFires (TimerC.triggerInterrupt s) = false ∧
      TimerC.triggerInterrupt (TimerC.triggerInterrupt s) = TimerC.triggerInterrupt s := by
    by_cases hc : s.timer_enabled = true ∧ s.timer_mode = .Countdown ∧ s.timer_value = 0
    · have e : TimerC.triggerInterrupt s =
          { s with
            interrupt_flag := true
            timer_enabled := false
            timer_mode := .Disabled } := by
        unfold TimerC.triggerInterrupt
        rw [if_pos hc]
      rw [e]
      constructor
      · simp [TimerC.triggerFires]
      · unfold TimerC.triggerInterrupt
        rw [if_neg]
        rintro ⟨h1, h2, h3⟩
        simp at h1
    · have e : TimerC.triggerInterrupt s = s := by
        unfold TimerC.triggerInterrupt
        rw [if_neg hc]
      rw [e]
      constructor
      · unfold TimerC.triggerFires
        exact decide_eq_false hc
      · exact e
  have main2 : Simple.triggerInterrupt (Simple.triggerInterrupt t).2 =
      (false, (Simple.triggerInterrupt t).2) := by
    by_cases ht : t.enabled = true ∧ t.value = 0
    · have f : Simple.triggerInterrupt t =
          (true, { t with interrupt_flag := true, enabled := false }) := by
        unfold Simple.triggerInterrupt
        rw [if_pos ht]
      rw [f]
      unfold Simple.triggerInterrupt
      rw [if_neg]
      rintro ⟨h1, h2⟩
      simp at h1
    · have f : Simple.triggerInterrupt t = (false, t) := by
        unfold Simple.triggerInterrupt
        rw [if_neg ht]
      rw [f]
      exact f
  exact ⟨main1.1, main1.2, main2⟩

/-- C7: `decrementTimer` is a no-op whenever disabled, in a non-Countdown
mode, or at zero; the `Simple` variant also reports `false`. -/
theorem C7_decrement_noop (s : TimerC.TimerState) (t : Simple.Timer)
    (hs : s.timer_enabled = false ∨ s.timer_mode ≠ .Countdown ∨ s.timer_value = 0)
    (ht : t.enabled = false ∨ t.value = 0) :
    TimerC.decrementTimer s = s ∧ Simple.decrementTimer t = (false, t) := by
  constructor
  · unfold TimerC.decrementTimer
    rw [if_neg]
    rintro ⟨h1, h2, h3⟩
    rcases hs with h | h | h
    · simp_all
    · exact h h2
    · omega
  · unfold Simple.decrementTimer
    rw [if_neg]
    rintro ⟨h1, h2⟩
    rcases ht with h | h
    · simp_all
    · omega

/-- C7 witness: decrement in Stopwatch mode, and decrement at zero in the
`Simple` variant, both leave the state unchanged. -/
theorem C7_witness :
    TimerC.decrementTimer ⟨5, true, false, .Stopwatch⟩ =
        ⟨5, true, false, .Stopwatch⟩ ∧
      Simple.decrementTimer ⟨0, true, false⟩ = (false, ⟨0, true, false⟩) :=
  C7_decrement_noop ⟨5, true, false, .Stopwatch⟩ ⟨0, true, false⟩
    (Or.inr (Or.inl (by decide))) (Or.inr rfl)

/-- C8: from any state whatsoever, `resetTimer` produces exactly the state a
fresh `initTimer` produces, in both variants. -/
theorem C8_reset_equals_init (s u : TimerC.TimerState) (t v : Simple.Timer) :
    TimerC.resetTimer s = TimerC.initTimer u ∧
      Simple.resetTimer t = Simple.initTimer v :=
  ⟨rfl, rfl⟩

/-- Mode-Disabled implies not enabled: the invariant behind claim C9. -/
def OffInv (s : TimerC.TimerState) : Prop :=
  s.timer_mode = .Disabled → s.timer_enabled = false

/-- `initTimer` establishes `OffInv`. -/
theorem offInv_init (s : TimerC.TimerState) : OffInv (TimerC.initTimer s) :=
  fun _ => rfl

/-- `setCountdownTimer` preserves `OffInv`. -/
theorem offInv_set (s : TimerC.TimerState) (d : Int) (h : OffInv s) :
    OffInv (TimerC.setCountdownTimer s d) := by
  unfold TimerC.setCountdownTimer
  split
  · intro hm
    simp at hm
  · exact h

/-- The spec-modelled `configureStopwatch` preserves `OffInv`. -/
theorem offInv_stopwatch (s : TimerC.TimerState) :
    OffInv (TimerC.configureStopwatch s) := by
  intro hm
  simp [TimerC.configureStopwatch] at hm

/-- `decrementTimer` preserves `OffInv`. -/
theorem offInv_decr (s : TimerC.TimerState) (h : OffInv s) :
    OffInv (TimerC.decrementTimer s) := by
  unfold TimerC.decrementTimer
  split
  · exact h
  · exact h

/-- `incrementStopwatch` preserves `OffInv`. -/
theorem offInv_incr (s : TimerC.TimerState) (h : OffInv s) :
    OffInv (TimerC.incrementStopwatch s) := by
  unfold TimerC.incrementStopwatch
  split
  · exact h
  · exact h

/-- `triggerInterrupt` preserves `OffInv`. -/
theorem offInv_trig (s : TimerC.TimerState) (h : OffInv s) :
    OffInv (TimerC.triggerInterrupt s) := by
  unfold TimerC.triggerInterrupt
  split
  · intro _
    rfl
  · exact h

/-- `resetTimer` establishes `OffInv`. -/
theorem offInv_reset (s : TimerC.TimerState) : OffInv (TimerC.resetTimer s) :=
  fun _ => rfl

/-- C9: in every state reachable by any sequence of operations (the
`src/timer.c` set plus the spec-modelled `configureStopwatch`),
`mode == Disabled` implies `enabled == false`. -/
theorem C9_disabled_not_enabled (s : TimerC.TimerState) (h : TimerC.ReachU s) :
    s.timer_mode = .Disabled → s.timer_enabled = false := by
  have inv : OffInv s := by
    induction h with
    | init s => exact offInv_init s
    | set d h ih => exact offInv_set _ d ih
    | stopwatch h ih => exact offInv_stopwatch _
    | decr h ih => exact offInv_decr _ ih
    | incr h ih => exact offInv_incr _ ih
    | trig h ih => exact offInv_trig _ ih
    | reset h ih => exact offInv_reset _
  exact inv

/-- C9 witness: at the initialized state (mode Disabled), enabled is false. -/
theorem C9_witness : TimerC.initState.timer_enabled = false :=
  C9_disabled_not_enabled TimerC.initState
    (TimerC.ReachU.init TimerC.initState) rfl

/-- C10: in the mode-enumeration variant no exported operation ever enters
Stopwatch mode, so every reachable state has `mode ≠ Stopwatch` and
`incrementStopwatch` is a no-op there. -/
theorem C10_no_stopwatch (s : TimerC.TimerState) (h : TimerC.ReachC s) :
    s.timer_mode ≠ .Stopwatch ∧ TimerC.incrementStopwatch s = s := by
  have hm := (reachC_invariant h).2.2
  refine ⟨hm, ?_⟩
  unfold TimerC.incrementStopwatch
  rw [if_neg]
  rintro ⟨h1, h2⟩
  exact hm h2

/-- C10 witness: the initialized state is reachable, is not in Stopwatch
mode, and is untouched by `incrementStopwatch`. -/
theorem C10_witness :
    TimerC.initState.timer_mode ≠ .Stopwatch ∧
      TimerC.incrementStopwatch TimerC.initState = TimerC.initState :=
  C10_no_stopwatch TimerC.initState (TimerC.ReachC.init TimerC.initState)
